import Mathlib

/-!
Shallow embedding of `oled-display.py`, the status-display daemon for a small
I2C OLED panel, together with proofs checking the specification's claims about
its pager (`group_infos`), renderer (`draw_info`), configuration loader
(`load_config`), time synchroniser (`sync_time`) and the display-initialisation
retry loop in `main`.
-/

/-- One telemetry entry: a label paired with its display-ready string value. -/
abbrev Entry := String × String

/-- A page.  In the source a page is a Python `dict` built by successive key
assignments; we keep it as the insertion-ordered association list, with
assignment to an existing key updating the value in place (Python dict
semantics). -/
abbrev Page := List Entry

/-- `group[k] = v` on a Python dict: update the value in place if `k` is
already present, otherwise append the pair at the end. -/
def dictInsert (g : Page) (k v : String) : Page :=
  match g with
  | [] => [(k, v)]
  | (k', v') :: rest => if k' = k then (k, v) :: rest else (k', v') :: dictInsert rest k v

/-- `for item in l: group[item[0]] = item[1]`. -/
def insertItems (g : Page) (l : List Entry) : Page :=
  l.foldl (fun acc kv => dictInsert acc kv.1 kv.2) g

/-- `all_items[start : start + count]` for `start ≥ 0` and `start + count ≥ 0`
(the only shapes `group_infos` produces): when `count ≤ 0` the slice is empty,
and the slice end is clamped to the list length. -/
def pySlice (l : List Entry) (start : Nat) (count : Int) : List Entry :=
  (l.drop start).take count.toNat

/-- `date_index = 1` in `group_infos`. -/
def date_index : Nat := 1

/-- `time_index = 2` in `group_infos`. -/
def time_index : Nat := 2

/-- `sync_index = 3` in `group_infos`. -/
def sync_index : Nat := 3

/-- The global `scroll_pos` table: group index ↦ (line index ↦ offset). -/
abbrev ScrollTable := List (Nat × List (Nat × Int))

/-- `scroll_pos[k] = v`. -/
def setScroll (sp : ScrollTable) (k : Nat) (v : List (Nat × Int)) : ScrollTable :=
  match sp with
  | [] => [(k, v)]
  | (k', v') :: rest => if k' = k then (k, v) :: rest else (k', v') :: setScroll rest k v

/-- Outcome of running the `while` loop of `group_infos` under a fuel bound:
normal return of the group list, a Python `IndexError` raised by
`all_items[date_index]` and friends when fewer than four entries exist, or
fuel exhaustion (used to reason about non-termination of the source loop). -/
inductive PagerResult where
  | ok (pages : List Page)
  | indexError
  | outOfFuel
deriving DecidableEq

/-- One iteration of the `while i < len(all_items)` body of `group_infos`,
given the current fill index `i`.  Returns the page built by this iteration
and the new fill index, or `none` for the `IndexError` raised in the forced
branch when the snapshot has fewer than four entries (reading
`all_items[date_index]`, `all_items[time_index]`, `all_items[sync_index]`
succeeds exactly when `sync_index < len(all_items)`, and then each read is
the list element at that position).  In the forced branch
the source sets `i = sync_index + 1`, fills from the slice
`all_items[i : i + remaining_lines]` with `remaining_lines = max_lines - 3`
(possibly negative, giving the empty slice), then runs `i += remaining_lines`;
Python integers are unbounded and signed, and the resulting index
`sync_index + 1 + remaining_lines = max_lines + 1` is never negative. -/
def groupStep (items : List Entry) (maxLines : Nat) (i : Nat) : Option (Page × Nat) :=
  if i = date_index then
    if sync_index < items.length then
      let d := items.getD date_index ("", "")
      let t := items.getD time_index ("", "")
      let s := items.getD sync_index ("", "")
      let g0 := dictInsert (dictInsert (dictInsert [] d.1 d.2) t.1 t.2) s.1 s.2
      let remaining : Int := (maxLines : Int) - 3
      let g := insertItems g0 (pySlice items (sync_index + 1) remaining)
      some (g, ((sync_index : Int) + 1 + remaining).toNat)
    else none
  else
    some (insertItems [] (pySlice items i (maxLines : Int)), i + maxLines)

/-- The `while i < len(all_items)` loop of `group_infos`, with explicit fuel.
`acc` holds the groups built so far in reverse; after appending a group the
source resets its scroll entry via `scroll_pos[len(groups) - 1] = {}`. -/
def groupLoop (items : List Entry) (maxLines : Nat) :
    Nat → Nat → List Page → ScrollTable → PagerResult × ScrollTable
  | 0, i, acc, sp =>
      if i < items.length then (.outOfFuel, sp) else (.ok acc.reverse, sp)
  | fuel + 1, i, acc, sp =>
      if i < items.length then
        match groupStep items maxLines i with
        | some (g, i') => groupLoop items maxLines fuel i' (g :: acc) (setScroll sp acc.length [])
        | none => (.indexError, sp)
      else (.ok acc.reverse, sp)

/-- `group_infos(info_dict)`: starting from `i = 0` with no groups.  The fuel
`items.length + 1` is sufficient for every execution of the source loop that
terminates (whenever `max_lines ≥ 1` the fill index strictly increases each
iteration, and the loop exits as soon as it reaches the length). -/
def group_infos (items : List Entry) (maxLines : Nat) (sp : ScrollTable) :
    PagerResult × ScrollTable :=
  groupLoop items maxLines (items.length + 1) 0 [] sp

/-- The telemetry snapshot returned by `get_system_info()`: eight entries in
this fixed label order, with runtime-dependent values. -/
def mkInfo (v0 v1 v2 v3 v4 v5 v6 v7 : String) : List Entry :=
  [("IP地址", v0), ("当前日期", v1), ("当前时间", v2), ("时间同步", v3),
   ("CPU负载", v4), ("CPU温度", v5), ("内存使用", v6), ("存储空间", v7)]

/-- A concrete snapshot with placeholder values, for closed computations. -/
def snapC : List Entry := mkInfo "v0" "v1" "v2" "v3" "v4" "v5" "v6" "v7"

/-- The labels of a page. -/
def keysOf (p : Page) : List String := p.map Prod.fst

/-- Claim C2 (confirmed): with capacity 4, the eight-entry snapshot paginates
into exactly two pages, page 0 = IP/date/time/sync and page 1 =
load/temperature/memory/disk, in original order. -/
theorem C2_capacity4_pages (v0 v1 v2 v3 v4 v5 v6 v7 : String) :
    (group_infos (mkInfo v0 v1 v2 v3 v4 v5 v6 v7) 4 []).1 =
      .ok [[("IP地址", v0), ("当前日期", v1), ("当前时间", v2), ("时间同步", v3)],
           [("CPU负载", v4), ("CPU温度", v5), ("内存使用", v6), ("存储空间", v7)]] := rfl

/-- Spec-side checker: does some page of a pager result carry the date, the
time and the sync-status labels together? -/
def trioTogether (r : PagerResult) : Bool :=
  match r with
  | .ok ps => ps.any (fun p =>
      (keysOf p).contains "当前日期" && (keysOf p).contains "当前时间" &&
      (keysOf p).contains "时间同步")
  | _ => false

/-- Spec-side checker: on how many pages of a pager result does label `k`
appear? -/
def pagesContaining (r : PagerResult) (k : String) : Nat :=
  match r with
  | .ok ps => (ps.filter (fun p => (keysOf p).contains k)).length
  | _ => 0

/-- Claim C1 is false as stated: at capacity 3 (which is `≥ 3`) the pager
puts the date and time entries on page 0 but the sync-status entry on
page 1, so the trio is not together on any page. -/
theorem C1_capacity3_counterexample :
    (group_infos snapC 3 []).1 =
      .ok [[("IP地址", "v0"), ("当前日期", "v1"), ("当前时间", "v2")],
           [("时间同步", "v3"), ("CPU负载", "v4"), ("CPU温度", "v5")],
           [("内存使用", "v6"), ("存储空间", "v7")]] ∧
    trioTogether (group_infos snapC 3 []).1 = false := ⟨rfl, rfl⟩

/-- Claim C3 is false as stated: at capacity 1 the forced date/time/sync
group is emitted, but the loop then resumes from fill index 2, so the time
and sync-status entries each appear on two pages — the result is not a
partition of the snapshot. -/
theorem C3_capacity1_counterexample :
    (group_infos snapC 1 []).1 =
      .ok [[("IP地址", "v0")],
           [("当前日期", "v1"), ("当前时间", "v2"), ("时间同步", "v3")],
           [("当前时间", "v2")], [("时间同步", "v3")], [("CPU负载", "v4")],
           [("CPU温度", "v5")], [("内存使用", "v6")], [("存储空间", "v7")]] ∧
    pagesContaining (group_infos snapC 1 []).1 "当前时间" = 2 ∧
    pagesContaining (group_infos snapC 1 []).1 "时间同步" = 2 := ⟨rfl, rfl, rfl⟩

/-- The page sequence computed by the pager loop does not depend on the
incoming `scroll_pos` table (which the loop only overwrites). -/
theorem groupLoop_pages_indep (items : List Entry) (ml : Nat) :
    ∀ fuel i acc sp sp',
      (groupLoop items ml fuel i acc sp).1 = (groupLoop items ml fuel i acc sp').1 := by
  intro fuel
  induction fuel with
  | zero =>
      intro i acc sp sp'
      by_cases h : i < items.length <;> simp [groupLoop, h]
  | succ f ih =>
      intro i acc sp sp'
      by_cases h : i < items.length
      · cases hs : groupStep items ml i with
        | none => simp [groupLoop, h, hs]
        | some gi =>
            obtain ⟨g, i'⟩ := gi
            simpa [groupLoop, h, hs] using ih i' (g :: acc) _ _
      · simp [groupLoop, h]

/-- Claim C8 (confirmed): the pager is a pure function of the snapshot and
the capacity.  Its only interaction with mutable state is overwriting
`scroll_pos` entries, so the page sequence it returns is the same for any
two runs, whatever the prior scroll state. -/
theorem C8_pager_deterministic (items : List Entry) (ml : Nat) (sp sp' : ScrollTable) :
    (group_infos items ml sp).1 = (group_infos items ml sp').1 :=
  groupLoop_pages_indep items ml _ 0 [] sp sp'

/-- Whenever `max_lines ≥ 1`, each loop iteration strictly increases the fill
index: the greedy branch adds `max_lines`, and the forced branch moves it
from `1` to `max_lines + 1`. -/
theorem groupStep_progress (items : List Entry) (ml i : Nat) (g : Page) (i' : Nat)
    (hml : 1 ≤ ml) (h : groupStep items ml i = some (g, i')) : i + 1 ≤ i' := by
  unfold groupStep at h
  split at h
  next hd =>
    split at h
    next =>
      simp only [Option.some.injEq, Prod.mk.injEq] at h
      have hi' : i' = ((sync_index : Int) + 1 + ((ml : Int) - 3)).toNat := h.2.symm
      simp only [sync_index] at hi'
      simp only [date_index] at hd
      subst hd
      omega
    next => cases h
  next hd =>
    simp only [Option.some.injEq, Prod.mk.injEq] at h
    omega

/-- With `max_lines ≥ 1`, the fuel bound `items.length ≤ i + fuel` is enough
for the pager loop: it never runs out of fuel (the source loop terminates,
either normally or by raising). -/
theorem groupLoop_no_fuel_exhaustion (items : List Entry) (ml : Nat) (hml : 1 ≤ ml) :
    ∀ fuel i acc sp, items.length ≤ i + fuel →
      (groupLoop items ml fuel i acc sp).1 ≠ .outOfFuel := by
  intro fuel
  induction fuel with
  | zero =>
      intro i acc sp hle
      have h : ¬ i < items.length := by omega
      simp [groupLoop, h]
  | succ f ih =>
      intro i acc sp hle
      by_cases h : i < items.length
      · cases hs : groupStep items ml i with
        | none => simp [groupLoop, h, hs]
        | some gi =>
            obtain ⟨g, i'⟩ := gi
            have hp := groupStep_progress items ml i g i' hml hs
            simpa [groupLoop, h, hs] using ih i' (g :: acc) _ (by omega)
      · simp [groupLoop, h]

/-- With capacity 0 on a non-empty snapshot the loop body never advances the
fill index (the greedy branch takes the empty slice and adds 0), so the loop
never terminates: it exhausts any amount of fuel. -/
theorem groupLoop_zero_capacity (items : List Entry) (hne : items ≠ []) :
    ∀ fuel acc sp, (groupLoop items 0 fuel 0 acc sp).1 = .outOfFuel := by
  have h0 : 0 < items.length := List.length_pos.mpr hne
  intro fuel
  induction fuel with
  | zero => intro acc sp; simp [groupLoop, h0]
  | succ f ih =>
      intro acc sp
      have hs : groupStep items 0 0 = some ([], 0) := rfl
      simpa [groupLoop, h0, hs] using ih ([] :: acc) _

/-- Claim C10 (confirmed): whenever the computed line capacity is at least 1,
the pager loop terminates on every snapshot (within fuel `items.length + 1`,
it either returns its pages or raises); at capacity 0 a single iteration from
fill index 0 produces the empty page and leaves the index at 0, and on a
non-empty snapshot the loop exhausts any amount of fuel. -/
theorem C10_pager_termination (items : List Entry) (ml : Nat) (sp : ScrollTable) :
    (1 ≤ ml → (group_infos items ml sp).1 ≠ .outOfFuel)
    ∧ groupStep items 0 0 = some ([], 0)
    ∧ (items ≠ [] → ∀ fuel acc sp', (groupLoop items 0 fuel 0 acc sp').1 = .outOfFuel) := by
  refine ⟨fun hml => ?_, rfl, fun hne => groupLoop_zero_capacity items hne⟩
  exact groupLoop_no_fuel_exhaustion items ml hml _ 0 [] sp (by omega)

/-- Witness for C10 at the concrete eight-entry snapshot: capacity 1
terminates, capacity 0 runs forever (shown here for fuel 5). -/
theorem C10_pager_termination_witness :
    (group_infos snapC 1 []).1 ≠ .outOfFuel
    ∧ (groupLoop snapC 0 5 0 [] []).1 = .outOfFuel :=
  ⟨(C10_pager_termination snapC 1 []).1 (by decide),
   ((C10_pager_termination snapC 1 []).2.2 (by decide)) 5 [] []⟩

/-- Assigning a key that is not yet present appends the pair at the end. -/
theorem dictInsert_of_notMem (g : Page) (k v : String) (h : k ∉ keysOf g) :
    dictInsert g k v = g ++ [(k, v)] := by
  induction g with
  | nil => rfl
  | cons e rest ih =>
      obtain ⟨k', v'⟩ := e
      simp only [keysOf, List.map_cons, List.mem_cons, not_or] at h
      have hne : ¬ (k' = k) := fun he => h.1 he.symm
      show (if k' = k then (k, v) :: rest else (k', v') :: dictInsert rest k v) = _
      rw [if_neg hne, ih (by simpa [keysOf] using h.2)]
      simp

/-- Filling a dict from a run of pairwise-fresh keys appends them in order. -/
theorem insertItems_append (l : List Entry) :
    ∀ g : Page, (∀ k ∈ l.map Prod.fst, k ∉ keysOf g) → (l.map Prod.fst).Nodup →
      insertItems g l = g ++ l := by
  induction l with
  | nil => intro g _ _; simp [insertItems]
  | cons e t ih =>
      intro g hdisj hnd
      obtain ⟨k, v⟩ := e
      have hstep : insertItems g ((k, v) :: t) = insertItems (dictInsert g k v) t := rfl
      have hk : k ∉ keysOf g := hdisj k (by simp)
      rw [hstep, dictInsert_of_notMem g k v hk]
      have hnd' := hnd
      simp only [List.map_cons, List.nodup_cons] at hnd'
      have hdisj' : ∀ k' ∈ t.map Prod.fst, k' ∉ keysOf (g ++ [(k, v)]) := by
        intro k' hk' hmem
        simp only [keysOf, List.map_append, List.mem_append, List.map_cons,
          List.map_nil, List.mem_singleton] at hmem
        rcases hmem with hmem | hmem
        · exact hdisj k' (by simp [hk']) hmem
        · exact hnd'.1 (hmem ▸ hk')
      rw [ih (g ++ [(k, v)]) hdisj' hnd'.2]
      simp

/-- Building a page from scratch out of entries with pairwise distinct labels
reproduces exactly that entry list. -/
theorem insertItems_nil_eq (l : List Entry) (hnd : (l.map Prod.fst).Nodup) :
    insertItems [] l = l := by
  simpa using insertItems_append l [] (by simp [keysOf]) hnd

/-- Casting the capacity through the Python slice: `pySlice l i max_lines` is
`take max_lines (drop i l)`. -/
theorem pySlice_natCast (l : List Entry) (i ml : Nat) :
    pySlice l i (ml : Int) = (l.drop i).take ml := by
  simp [pySlice]

/-- With capacity at least 2 the forced branch is unreachable (the fill index
is 0 or at least 2 forever), and the loop greedily chunks the remaining
snapshot: the pages appended after `acc` concatenate back to `items.drop i`
and each has at most `max_lines` entries. -/
theorem groupLoop_chunks (items : List Entry) (ml : Nat) (hml : 2 ≤ ml)
    (hnd : (items.map Prod.fst).Nodup) :
    ∀ fuel i acc sp, (i = 0 ∨ 2 ≤ i) → items.length ≤ i + fuel →
      ∃ tail, (groupLoop items ml fuel i acc sp).1 = .ok (acc.reverse ++ tail) ∧
        tail.flatten = items.drop i ∧ ∀ p ∈ tail, p.length ≤ ml := by
  intro fuel
  induction fuel with
  | zero =>
      intro i acc sp hi hle
      have hg : ¬ i < items.length := by omega
      refine ⟨[], by simp [groupLoop, hg], ?_, by simp⟩
      rw [List.drop_eq_nil_of_le (by omega)]
      simp
  | succ f ih =>
      intro i acc sp hi hle
      by_cases hg : i < items.length
      · have hne1 : ¬ i = date_index := by
          simp only [date_index]; rcases hi with h | h <;> omega
        have hstep : groupStep items ml i =
            some (insertItems [] (pySlice items i (ml : Int)), i + ml) := by
          simp [groupStep, hne1]
        have hnddrop : ((items.drop i).map Prod.fst).Nodup :=
          hnd.sublist ((items.drop_sublist i).map Prod.fst)
        have hndtake : (((items.drop i).take ml).map Prod.fst).Nodup :=
          hnddrop.sublist (((items.drop i).take_sublist ml).map Prod.fst)
        have hpage : insertItems [] (pySlice items i (ml : Int)) = (items.drop i).take ml := by
          rw [pySlice_natCast]
          exact insertItems_nil_eq _ hndtake
        obtain ⟨tail, htl, hj, hlen⟩ :=
          ih (i + ml) (((items.drop i).take ml) :: acc) (setScroll sp acc.length [])
            (Or.inr (by omega)) (by omega)
        refine ⟨((items.drop i).take ml) :: tail, ?_, ?_, ?_⟩
        · have : (groupLoop items ml (f + 1) i acc sp).1 =
              (groupLoop items ml f (i + ml) (((items.drop i).take ml) :: acc)
                (setScroll sp acc.length [])).1 := by
            simp [groupLoop, hg, hstep, hpage]
          rw [this, htl]
          simp
        · have hdd : items.drop (i + ml) = (items.drop i).drop ml := by
            rw [List.drop_drop]
          rw [List.flatten_cons, hj, hdd, List.take_append_drop]
        · intro p hp
          rcases List.mem_cons.mp hp with hp | hp
          · subst hp
            exact List.length_take_le ml (items.drop i)
          · exact hlen p hp
      · have hle' : items.length ≤ i := by omega
        refine ⟨[], by simp [groupLoop, hg], ?_, by simp⟩
        rw [List.drop_eq_nil_of_le hle']
        simp

/-- Claim C3, amended: for every snapshot whose labels are pairwise distinct
(Python dict keys always are) and every capacity at least 2, the pager is a
true partition — the pages concatenate back to the snapshot in order (so each
entry is on exactly one page and pages are contiguous slices) and no page
exceeds the capacity.  At capacity 1 this fails: the forced date/time/sync
group makes the time and sync entries reappear on later pages. -/
theorem C3_partition_amended (items : List Entry) (ml : Nat) (sp : ScrollTable)
    (hml : 2 ≤ ml) (hnd : (items.map Prod.fst).Nodup) :
    ∃ ps, (group_infos items ml sp).1 = .ok ps ∧ ps.flatten = items ∧
      ∀ p ∈ ps, p.length ≤ ml := by
  obtain ⟨tail, htl, hj, hlen⟩ :=
    groupLoop_chunks items ml hml hnd (items.length + 1) 0 [] sp (Or.inl rfl) (by omega)
  exact ⟨tail, by simpa [group_infos] using htl, by simpa using hj, hlen⟩

/-- Witness for the amended C3 at the concrete snapshot with capacity 2. -/
theorem C3_partition_amended_witness :
    ∃ ps, (group_infos snapC 2 []).1 = .ok ps ∧ ps.flatten = snapC ∧
      ∀ p ∈ ps, p.length ≤ 2 :=
  C3_partition_amended snapC 2 [] (by decide) (by decide)

/-- Once the fill index is at least 2, with positive capacity the loop always
completes normally, and every already-built page is in the final page list. -/
theorem groupLoop_ok_mem (items : List Entry) (ml : Nat) (hml : 1 ≤ ml) :
    ∀ fuel i acc sp, 2 ≤ i → items.length ≤ i + fuel →
      ∃ ps, (groupLoop items ml fuel i acc sp).1 = .ok ps ∧ ∀ g ∈ acc, g ∈ ps := by
  intro fuel
  induction fuel with
  | zero =>
      intro i acc sp hi hle
      have hg : ¬ i < items.length := by omega
      exact ⟨acc.reverse, by simp [groupLoop, hg], fun g hg' => List.mem_reverse.mpr hg'⟩
  | succ f ih =>
      intro i acc sp hi hle
      by_cases hg : i < items.length
      · have hne1 : ¬ i = date_index := by simp only [date_index]; omega
        have hstep : groupStep items ml i =
            some (insertItems [] (pySlice items i (ml : Int)), i + ml) := by
          simp [groupStep, hne1]
        obtain ⟨ps, hok, hmem⟩ :=
          ih (i + ml) (insertItems [] (pySlice items i (ml : Int)) :: acc)
            (setScroll sp acc.length []) (by omega) (by omega)
        refine ⟨ps, ?_, fun g hg' => hmem g (List.mem_cons_of_mem _ hg')⟩
        rw [← hok]
        simp [groupLoop, hg, hstep]
      · have : ¬ i < items.length := hg
        exact ⟨acc.reverse, by simp [groupLoop, this], fun g hg' => List.mem_reverse.mpr hg'⟩

/-- Claim C1, amended: for every eight-entry snapshot and capacity at least 3
the pager keeps the date and time entries on one common page, and for
capacity at least 4 the sync-status entry is on that page too; but at
capacity 3 exactly, the sync-status entry falls on the next page, separated
from date and time. -/
theorem C1_trio_amended (v0 v1 v2 v3 v4 v5 v6 v7 : String) (cap : Nat) (h3 : 3 ≤ cap) :
    (∃ ps p, (group_infos (mkInfo v0 v1 v2 v3 v4 v5 v6 v7) cap []).1 = .ok ps ∧ p ∈ ps ∧
      "当前日期" ∈ keysOf p ∧ "当前时间" ∈ keysOf p ∧ (4 ≤ cap → "时间同步" ∈ keysOf p))
    ∧ (cap = 3 → (group_infos (mkInfo v0 v1 v2 v3 v4 v5 v6 v7) cap []).1 =
        .ok [[("IP地址", v0), ("当前日期", v1), ("当前时间", v2)],
             [("时间同步", v3), ("CPU负载", v4), ("CPU温度", v5)],
             [("内存使用", v6), ("存储空间", v7)]]) := by
  constructor
  · rcases Nat.lt_or_ge cap 4 with h4 | h4
    · have hc : cap = 3 := by omega
      subst hc
      exact ⟨[[("IP地址", v0), ("当前日期", v1), ("当前时间", v2)],
              [("时间同步", v3), ("CPU负载", v4), ("CPU温度", v5)],
              [("内存使用", v6), ("存储空间", v7)]],
             [("IP地址", v0), ("当前日期", v1), ("当前时间", v2)],
             rfl, by simp, by simp [keysOf], by simp [keysOf],
             fun h => absurd h (by omega)⟩
    · have hfirst : (group_infos (mkInfo v0 v1 v2 v3 v4 v5 v6 v7) cap []).1 =
          (groupLoop (mkInfo v0 v1 v2 v3 v4 v5 v6 v7) cap 8 (0 + cap)
            [insertItems [] (pySlice (mkInfo v0 v1 v2 v3 v4 v5 v6 v7) 0 (cap : Int))]
            (setScroll [] 0 [])).1 := rfl
      obtain ⟨ps, hok, hmem⟩ :=
        groupLoop_ok_mem (mkInfo v0 v1 v2 v3 v4 v5 v6 v7) cap (by omega) 8 (0 + cap)
          [insertItems [] (pySlice (mkInfo v0 v1 v2 v3 v4 v5 v6 v7) 0 (cap : Int))]
          (setScroll [] 0 []) (by omega) (by simp [mkInfo])
      have hndk : ((mkInfo v0 v1 v2 v3 v4 v5 v6 v7).map Prod.fst).Nodup := by
        simp only [mkInfo, List.map_cons, List.map_nil]
        decide
      have hpage : insertItems [] (pySlice (mkInfo v0 v1 v2 v3 v4 v5 v6 v7) 0 (cap : Int)) =
          (mkInfo v0 v1 v2 v3 v4 v5 v6 v7).take cap := by
        rw [pySlice_natCast, List.drop_zero]
        exact insertItems_nil_eq _
          (hndk.sublist (((mkInfo v0 v1 v2 v3 v4 v5 v6 v7).take_sublist cap).map Prod.fst))
      have hkset : keysOf ((mkInfo v0 v1 v2 v3 v4 v5 v6 v7).take cap) =
          List.take cap ["IP地址", "当前日期", "当前时间", "时间同步",
                         "CPU负载", "CPU温度", "内存使用", "存储空间"] := by
        simp [keysOf, List.map_take, mkInfo]
      have hkeys : "当前日期" ∈ keysOf ((mkInfo v0 v1 v2 v3 v4 v5 v6 v7).take cap) ∧
          "当前时间" ∈ keysOf ((mkInfo v0 v1 v2 v3 v4 v5 v6 v7).take cap) ∧
          "时间同步" ∈ keysOf ((mkInfo v0 v1 v2 v3 v4 v5 v6 v7).take cap) := by
        rw [hkset]
        rcases Nat.lt_or_ge cap 8 with h8 | h8
        · interval_cases cap <;> exact ⟨by decide, by decide, by decide⟩
        · rw [List.take_of_length_le (by simpa using h8)]
          exact ⟨by decide, by decide, by decide⟩
      refine ⟨ps, insertItems [] (pySlice (mkInfo v0 v1 v2 v3 v4 v5 v6 v7) 0 (cap : Int)),
        ?_, hmem _ (by simp), ?_, ?_, fun _ => ?_⟩
      · rw [hfirst, hok]
      · rw [hpage]; exact hkeys.1
      · rw [hpage]; exact hkeys.2.1
      · rw [hpage]; exact hkeys.2.2
  · intro hc
    subst hc
    rfl

/-- Witness for the amended C1 at capacity 4 with concrete values. -/
theorem C1_trio_amended_witness :
    ∃ ps p, (group_infos (mkInfo "v0" "v1" "v2" "v3" "v4" "v5" "v6" "v7") 4 []).1 = .ok ps ∧
      p ∈ ps ∧ "当前日期" ∈ keysOf p ∧ "当前时间" ∈ keysOf p ∧
      (4 ≤ 4 → "时间同步" ∈ keysOf p) :=
  (C1_trio_amended "v0" "v1" "v2" "v3" "v4" "v5" "v6" "v7" 4 (by decide)).1

/-- The first status string of `sync_time`: network sync succeeded. -/
def sync_success_msg : String := "时间同步: 成功"

/-- The second status string of `sync_time`: hardware-clock fallback
succeeded. -/
def sync_rtc_msg : String := "时间同步: RTC成功"

/-- The third status string of `sync_time`: both attempts failed. -/
def sync_fail_msg : String := "时间同步: 失败"

/-- `sync_time(config)`.  The three external effects are abstracted by their
outcomes: `ntpOk` — the NTP request returns a response (on failure `ntplib`
raises `NTPException`, or name resolution raises `socket.gaierror`);
`dateOk` — `sudo date -s …` exits 0 (else `CalledProcessError`); `hwOk` —
`sudo hwclock --hctosys` exits 0 (else `CalledProcessError`).  All three
exception types are caught by the source's handlers, so the function returns
a status string on every outcome: the first string when the request and the
clock-set both succeed, otherwise the second when the hardware-clock command
succeeds, otherwise the third. -/
def sync_time (ntpOk dateOk hwOk : Bool) : String :=
  if ntpOk && dateOk then sync_success_msg
  else if hwOk then sync_rtc_msg
  else sync_fail_msg

/-- Claim C4 (confirmed): for every outcome of the three external calls,
`sync_time` returns (never raises) one of exactly three fixed strings, and a
failed network sync followed by a successful hardware-clock fallback yields
the second (RTC-success) string. -/
theorem C4_sync_time_status (ntpOk dateOk hwOk : Bool) :
    (sync_time ntpOk dateOk hwOk = sync_success_msg ∨
     sync_time ntpOk dateOk hwOk = sync_rtc_msg ∨
     sync_time ntpOk dateOk hwOk = sync_fail_msg)
    ∧ (ntpOk = false → hwOk = true → sync_time ntpOk dateOk hwOk = sync_rtc_msg) := by
  constructor
  · cases ntpOk <;> cases dateOk <;> cases hwOk <;> simp [sync_time]
  · intro hn hw
    subst hn; subst hw
    simp [sync_time]

/-- Witness for C4: network failure plus hardware-clock success returns the
RTC string. -/
theorem C4_sync_time_status_witness :
    sync_time false true true = sync_rtc_msg :=
  (C4_sync_time_status false true true).2 rfl rfl

/-- The bounding box returned by `font.getbbox("测试")`: `(left, top, right,
bottom)` in pixels. -/
structure BBox where
  left : Int
  top : Int
  right : Int
  bottom : Int
deriving DecidableEq

/-- `text_height = bottom - top` as computed inside `calculate_lines`. -/
def text_height (b : BBox) : Int := b.bottom - b.top

/-- `calculate_lines()`: `config['height'] // (text_height + 2)` with
Python's floor division. -/
def calculate_lines (height : Int) (b : BBox) : Int :=
  height.fdiv (text_height b + 2)

/-- The vertical position of line `i` drawn by `draw_info`:
`y = y_offset + i * (bottom + 2)`, where `bottom` is the fourth component of
`font.getbbox("测试")` (not `bottom - top`). -/
def draw_y (b : BBox) (y_offset : Int) (i : Nat) : Int :=
  y_offset + (i : Int) * (b.bottom + 2)

/-- Claim C6 is false as stated: the renderer's line pitch is `bottom + 2`
while the capacity formula divides by `(bottom - top) + 2`; with the bounding
box `(0, 2, 10, 12)` line 1 sits at y = 14, not at
`1 × (glyph_height + 2) = 12` for the capacity formula's glyph height 10. -/
theorem C6_spacing_counterexample :
    draw_y ⟨0, 2, 10, 12⟩ 0 1 = 14 ∧
    text_height ⟨0, 2, 10, 12⟩ = 10 ∧
    calculate_lines 32 ⟨0, 2, 10, 12⟩ = 2 ∧
    draw_y ⟨0, 2, 10, 12⟩ 0 1 ≠ 0 + 1 * (text_height ⟨0, 2, 10, 12⟩ + 2) := by
  refine ⟨by decide, by decide, by decide, by decide⟩

/-- Claim C6, amended: `draw_info` draws line `i` at
`y_offset + i * (bbox.bottom + 2)`, which exceeds the capacity formula's
pitch `i * (glyph_height + 2)` by exactly `i * bbox.top` (so the two agree
precisely when the bounding box's top is 0), while `calculate_lines` divides
the panel height by `glyph_height + 2` with `glyph_height = bottom - top`. -/
theorem C6_draw_y_amended (b : BBox) (y_offset : Int) (i : Nat) (height : Int) :
    draw_y b y_offset i = y_offset + (i : Int) * (text_height b + 2) + (i : Int) * b.top
    ∧ calculate_lines height b = height.fdiv (text_height b + 2)
    ∧ (b.top = 0 → draw_y b y_offset i = y_offset + (i : Int) * (text_height b + 2)) := by
  refine ⟨?_, rfl, fun h0 => ?_⟩
  · simp only [draw_y, text_height]; ring
  · simp only [draw_y, text_height, h0]; ring

/-- Witness for the amended C6 at a zero-top bounding box. -/
theorem C6_draw_y_amended_witness :
    draw_y ⟨0, 0, 10, 12⟩ 0 2 = 0 + (2 : Int) * (text_height ⟨0, 0, 10, 12⟩ + 2) :=
  (C6_draw_y_amended ⟨0, 0, 10, 12⟩ 0 2 32).2.2 rfl

/-- One line of `draw_info` for a line at scroll offset `offset`: returns the
x-coordinate used for drawing and the offset stored back into `scroll_pos`.
If the text is wider than the panel the offset is first decremented by 1,
then reset to `config['width']` if it dropped below `-text_width`, and the
(possibly reset) offset is used as x; otherwise the text is centred at
`(width - text_width) // 2` and the offset is left unchanged. -/
def line_x (width text_width offset : Int) : Int × Int :=
  if text_width > width then
    if offset - 1 < -text_width then (width, width) else (offset - 1, offset - 1)
  else ((width - text_width).fdiv 2, offset)

/-- Claim C7 (confirmed): for a line wider than the panel the offset drops by
one each frame, and in the first frame in which it becomes more negative than
`-text_width` it is reset to exactly `+width` (used as the x-coordinate that
same frame); fitting lines are centred, e.g. x = 44 for width 128 and text
width 40. -/
theorem C7_scroll_and_center (width text_width offset : Int) :
    (text_width > width →
      (offset - 1 < -text_width → line_x width text_width offset = (width, width))
      ∧ (-text_width ≤ offset - 1 →
          line_x width text_width offset = (offset - 1, offset - 1)))
    ∧ (text_width ≤ width →
        line_x width text_width offset = ((width - text_width).fdiv 2, offset))
    ∧ line_x 128 40 offset = (44, offset) := by
  refine ⟨fun hw => ⟨fun hlt => ?_, fun hge => ?_⟩, fun hle => ?_, ?_⟩
  · simp [line_x, hw, hlt]
  · simp [line_x, hw, not_lt.mpr hge]
  · simp [line_x, not_lt.mpr hle]
  · rfl

/-- Witness for C7: a decrement step, a wrap step, and the centred case. -/
theorem C7_scroll_and_center_witness :
    line_x 128 200 0 = (-1, -1) ∧ line_x 128 200 (-200) = (128, 128)
    ∧ line_x 128 40 7 = (44, 7) :=
  ⟨((C7_scroll_and_center 128 200 0).1 (by decide)).2 (by decide),
   ((C7_scroll_and_center 128 200 (-200)).1 (by decide)).1 (by decide),
   (C7_scroll_and_center 128 40 7).2.2⟩

/-- The display-initialisation retry loop of `main`:
`for _ in range(3): try: init; break; except: log; sleep(2)` with a `for`-
`else` that raises a fatal `RuntimeError`.  `succ k` tells whether the k-th
(0-based) initialisation attempt succeeds.  Returns the number of attempts
made, the total seconds slept (each failed attempt sleeps 2 s), and whether
initialisation succeeded. -/
def initLoop (succ : Nat → Bool) : Nat → Nat → Nat × Nat × Bool
  | _, 0 => (0, 0, false)
  | k, fuel + 1 =>
      if succ k then (1, 0, true)
      else
        let r := initLoop succ (k + 1) fuel
        (r.1 + 1, r.2.1 + 2, r.2.2)

/-- The retry loop as entered from `main`: three attempts starting at 0. -/
def init_display (succ : Nat → Bool) : Nat × Nat × Bool := initLoop succ 0 3

/-- Whether `main` goes on to the render loop (and hence ever calls
`device.display`): only when initialisation succeeded; when the retry loop is
exhausted the `RuntimeError` propagates to the outer `except Exception`
handler, which logs and returns without any display call. -/
def main_display_runs (succ : Nat → Bool) : Bool := (init_display succ).2.2

/-- Claim C9 (confirmed): at most 3 initialisation attempts are made, each
failure sleeps 2 seconds; if attempt k (1-based, k ≤ 3) is the first success
then exactly k attempts are made and startup continues; if all three fail the
loop reports failure (the source raises a fatal `RuntimeError`) and the
render loop — hence any display call — is never reached. -/
theorem C9_init_retry (succ : Nat → Bool) :
    (init_display succ).1 ≤ 3
    ∧ (succ 0 = true → init_display succ = (1, 0, true))
    ∧ (succ 0 = false → succ 1 = true → init_display succ = (2, 2, true))
    ∧ (succ 0 = false → succ 1 = false → succ 2 = true →
        init_display succ = (3, 4, true))
    ∧ (succ 0 = false → succ 1 = false → succ 2 = false →
        init_display succ = (3, 6, false) ∧ main_display_runs succ = false) := by
  refine ⟨?_, fun h0 => ?_, fun h0 h1 => ?_, fun h0 h1 h2 => ?_, fun h0 h1 h2 => ?_⟩
  · rcases h0 : succ 0 <;> rcases h1 : succ 1 <;> rcases h2 : succ 2 <;>
      simp [init_display, initLoop, h0, h1, h2]
  · simp [init_display, initLoop, h0]
  · simp [init_display, initLoop, h0, h1]
  · simp [init_display, initLoop, h0, h1, h2]
  · constructor <;> simp [main_display_runs, init_display, initLoop, h0, h1, h2]

/-- Witness for C9: two failures then a success make exactly 3 attempts and a
successful start. -/
theorem C9_init_retry_witness :
    init_display (fun k => decide (k = 2)) = (3, 4, true) :=
  (C9_init_retry (fun k => decide (k = 2))).2.2.2.1 rfl rfl rfl

/-- An external key-value config source: `((section, key), value)` triples,
the view of the parsed `configparser` file that `config.get` consults. -/
abbrev Store := List ((String × String) × String)

/-- `config.get(section, key, fallback=...)` without the fallback: the raw
string if the section/key pair is present. -/
def storeGet (st : Store) (sec key : String) : Option String :=
  (st.find? (fun e => e.1.1 == sec && e.1.2 == key)).map Prod.snd

/-- The numeric value of a decimal digit. -/
def digitVal? (c : Char) : Option Nat :=
  if c.isDigit then some (c.toNat - 48) else none

/-- The value of a string of decimal digits; `some 0` on the empty string,
`none` if any character is not a digit. -/
def digitsVal? (l : List Char) : Option Nat :=
  l.foldl
    (fun acc c =>
      match acc, digitVal? c with
      | some a, some d => some (a * 10 + d)
      | _, _ => none)
    (some 0)

/-- A non-empty all-digit run, as required for the integer part of a Python
numeric literal. -/
def parseNatDigits? (l : List Char) : Option Nat :=
  if l.isEmpty then none else digitsVal? l

/-- Python's `int(s)` on the plain decimal forms (optional sign, digits);
`none` models the `ValueError` on anything else. -/
def parseInt? (s : String) : Option Int :=
  match s.data with
  | '-' :: rest => (parseNatDigits? rest).map (fun n => -(n : Int))
  | '+' :: rest => (parseNatDigits? rest).map (fun n => (n : Int))
  | l => (parseNatDigits? l).map (fun n => (n : Int))

/-- The value of `intPart.fracPart`; `none` (a `ValueError`) when both parts
are empty or a character is not a digit. -/
def parseDecParts? (ip fp : List Char) : Option Rat :=
  if ip.isEmpty && fp.isEmpty then none
  else
    match digitsVal? ip, digitsVal? fp with
    | some a, some b => some ((a : Rat) + (b : Rat) / ((10 : Rat) ^ fp.length))
    | _, _ => none

/-- Python's `float(s)` on the plain decimal forms (optional sign, digits,
optional point); `none` models the `ValueError` on anything else. -/
def parseRat? (s : String) : Option Rat :=
  let core := fun (l : List Char) =>
    match l.splitOn '.' with
    | [ip] => (parseNatDigits? ip).map (fun n => (n : Rat))
    | [ip, fp] => parseDecParts? ip fp
    | _ => none
  match s.data with
  | '-' :: rest => (core rest).map Neg.neg
  | '+' :: rest => core rest
  | l => core l

/-- The configuration record built by `load_config`. -/
structure Config where
  width : Int
  height : Int
  scroll_speed : Rat
  ntp_server : String
  timeout : Int
deriving DecidableEq

/-- The default scroll speed, 0.1 seconds per step. -/
def scrollDefault : Rat := 1 / 10

/-- The hard-coded fallback record returned when the file is missing or any
field conversion raises. -/
def defaultConfig : Config := ⟨128, 32, scrollDefault, "ntp.ntsc.ac.cn", 3⟩

/-- `int(config.get(sec, key, fallback=dflt))`: a missing section/key yields
the (already integral) fallback; a present string is converted by `int`,
whose `ValueError` is modelled by `none`. -/
def getIntField (st : Store) (sec key : String) (dflt : Int) : Option Int :=
  match storeGet st sec key with
  | none => some dflt
  | some s => parseInt? s

/-- `float(config.get(sec, key, fallback=dflt))`, analogously. -/
def getRatField (st : Store) (sec key : String) (dflt : Rat) : Option Rat :=
  match storeGet st sec key with
  | none => some dflt
  | some s => parseRat? s

/-- The `try` body of `load_config` once the file exists: build the record
field by field; `none` models any conversion raising (which aborts the whole
`return` expression and lands in the `except` handler).  The `ntp_server`
field is used as a raw string, so it cannot raise. -/
def tryLoadConfig (st : Store) : Option Config :=
  (getIntField st "DISPLAY" "width" 128).bind fun w =>
    (getIntField st "DISPLAY" "height" 32).bind fun h =>
      (getRatField st "DISPLAY" "scroll_speed" scrollDefault).bind fun sp =>
        (getIntField st "TIME" "timeout" 3).map fun t =>
          ⟨w, h, sp, (storeGet st "TIME" "ntp_server").getD "ntp.ntsc.ac.cn", t⟩

/-- `load_config()`: `none` is a missing file (`os.path.exists` false, fall
through to the final `return` of defaults); with a file present, any
conversion error is caught, logged and replaced by the same full default
record. -/
def load_config (src : Option Store) : Config :=
  match src with
  | none => defaultConfig
  | some st => (tryLoadConfig st).getD defaultConfig

/-- The counterexample source: a malformed `width` next to a perfectly valid
`height = 64`. -/
def cexStore : Store := [(("DISPLAY", "width"), "abc"), (("DISPLAY", "height"), "64")]

/-- Claim C5 is false as stated: with `width = "abc"` and `height = "64"` in
the file, the single malformed `width` makes `int()` raise inside the `try`,
so the whole record falls back to the defaults — the valid `height = 64` is
not kept (the result's height is the default 32). -/
theorem C5_malformed_counterexample :
    storeGet cexStore "DISPLAY" "height" = some "64" ∧
    parseInt? "64" = some 64 ∧
    load_config (some cexStore) = defaultConfig ∧
    (load_config (some cexStore)).height = 32 :=
  ⟨rfl, rfl, rfl, rfl⟩

/-- Claim C5, amended: `load_config` always returns a fully populated record
and never propagates an error; a missing or empty source yields exactly the
defaults; a key missing from the source falls back to that key's default
independently, leaving the other keys' valid values intact; but a malformed
value for any one key aborts the whole load and makes every field fall back
to its default (not just that key). -/
theorem C5_load_config_amended :
    load_config none = defaultConfig
    ∧ load_config (some []) = defaultConfig
    ∧ (∀ st, storeGet st "DISPLAY" "width" = none → (load_config (some st)).width = 128)
    ∧ (∀ st s, storeGet st "DISPLAY" "width" = some s → parseInt? s = none →
        load_config (some st) = defaultConfig)
    ∧ (∀ st c, tryLoadConfig st = some c →
        load_config (some st) = c
        ∧ (∀ s v, storeGet st "DISPLAY" "height" = some s → parseInt? s = some v →
            c.height = v)
        ∧ (storeGet st "DISPLAY" "height" = none → c.height = 32)) := by
  refine ⟨rfl, rfl, fun st hw => ?_, fun st s hws hp => ?_, fun st c htc => ?_⟩
  · have hwf : getIntField st "DISPLAY" "width" 128 = some 128 := by
      simp [getIntField, hw]
    rcases hh : getIntField st "DISPLAY" "height" 32 with _ | h <;>
      rcases hsp : getRatField st "DISPLAY" "scroll_speed" scrollDefault with _ | sp <;>
        rcases ht : getIntField st "TIME" "timeout" 3 with _ | t <;>
          simp [load_config, tryLoadConfig, hwf, hh, hsp, ht, defaultConfig]
  · have hwf : getIntField st "DISPLAY" "width" 128 = none := by
      simp [getIntField, hws, hp]
    simp [load_config, tryLoadConfig, hwf]
  · have hext : ∀ hv : Int, getIntField st "DISPLAY" "height" 32 = some hv →
        c.height = hv := by
      intro hv hhf
      rcases hwf : getIntField st "DISPLAY" "width" 128 with _ | w
      · simp [tryLoadConfig, hwf] at htc
      rcases hsp : getRatField st "DISPLAY" "scroll_speed" scrollDefault with _ | sp
      · simp [tryLoadConfig, hwf, hhf, hsp] at htc
      rcases ht : getIntField st "TIME" "timeout" 3 with _ | t
      · simp [tryLoadConfig, hwf, hhf, hsp, ht] at htc
      · simp [tryLoadConfig, hwf, hhf, hsp, ht] at htc
        rw [← htc]
    refine ⟨by simp [load_config, htc], fun s v hs hv => ?_, fun hs => ?_⟩
    · exact hext v (by simp [getIntField, hs, hv])
    · exact hext 32 (by simp [getIntField, hs])

/-- Witness for the amended C5: a source with only a valid `height = 64`
keeps that value and defaults the missing `width`; a source with a malformed
`width` collapses to the full defaults. -/
theorem C5_load_config_amended_witness :
    (load_config (some [(("DISPLAY", "height"), "64")])).width = 128
    ∧ load_config (some [(("DISPLAY", "width"), "abc")]) = defaultConfig
    ∧ (load_config (some [(("DISPLAY", "height"), "64")])).height = 64 :=
  ⟨C5_load_config_amended.2.2.1 [(("DISPLAY", "height"), "64")] rfl,
   C5_load_config_amended.2.2.2.1 [(("DISPLAY", "width"), "abc")] "abc" rfl rfl,
   ((C5_load_config_amended.2.2.2.2 [(("DISPLAY", "height"), "64")]
      ⟨128, 64, scrollDefault, "ntp.ntsc.ac.cn", 3⟩ rfl).2.1 "64" 64 rfl rfl)⟩
